import Mathlib

/-!
Shallow embedding of the `project_tracking` app (file
`src/project_tracking/views.py`) of the ChronoFrank/project_tracker
repository, together with theorems checking its specification.

The database is modelled as an explicit state (lists of project and task
rows); each view method of `TasksViewSet` / `ProjectViewSet` becomes a
function from a state and request parameters to a status-coded result and
a new state.  Timestamps are integers (seconds); `timezone.now()` becomes
an explicit `now` argument.  Request body fields coming from
`request.data.get(...)` are `Option String`; Python falsiness of such a
value is `none` or the empty string.  An exception that a view raises
without catching (e.g. `ValueError` from `int(...)` outside a `try`)
is modelled as the `fatal` outcome, distinct from every structured
status-coded response.

The model classes themselves (`models.py`: field defaults and the methods
`is_closed`, `toggle_paused`, `close`, `restart`) are not part of the
sources; they are modelled from the spec, and each such definition is
marked `Modelled from the spec:` in its doc comment.
-/

namespace ProjectTracking

/-- A row of the Project model: `{ id, name, owner (user reference) }`. -/
structure Project where
  id : Nat
  name : String
  userId : Nat
deriving Repr, DecidableEq

/-- A row of the Task model: timing fields as in the data model
(`started_at`, nullable `paused_at`, accumulated `seconds_paused`,
nullable `ended_at`, nullable self-reference `cloned_from`). -/
structure Task where
  id : Nat
  name : String
  projectId : Nat
  startedAt : Int
  pausedAt : Option Int
  secondsPaused : Int
  endedAt : Option Int
  clonedFrom : Option Nat
deriving Repr, DecidableEq

/-- The shared mutable store: project and task tables plus the next
auto-assigned primary keys. -/
structure DB where
  projects : List Project
  tasks : List Task
  nextProjectId : Nat
  nextTaskId : Nat
deriving Repr, DecidableEq

/-- The empty store. -/
def emptyDB : DB :=
  { projects := [], tasks := [], nextProjectId := 1, nextTaskId := 1 }

/-- Outcome of a view call: a status-coded response carrying a task for the
success cases, or `fatal` for an exception the view does not catch. -/
inductive ApiResult where
  | created (t : Task)
  | ok (t : Task)
  | badRequest (msg : String)
  | forbidden (msg : String)
  | notFound (msg : String)
  | fatal (msg : String)
deriving Repr, DecidableEq

def ApiResult.isForbidden : ApiResult → Bool
  | .forbidden _ => true
  | _ => false

def ApiResult.isCreated : ApiResult → Bool
  | .created _ => true
  | _ => false

def ApiResult.isNotFound : ApiResult → Bool
  | .notFound _ => true
  | _ => false

def ApiResult.isFatal : ApiResult → Bool
  | .fatal _ => true
  | _ => false

def ApiResult.isBadRequest : ApiResult → Bool
  | .badRequest _ => true
  | _ => false

/-- The 403 message shared verbatim by `create` and `continue_task`. -/
def runningMsg : String :=
  "there are tasks running, you must pause or close them in order to create new tasks"

/-- Python falsiness of a `request.data.get(...)` value: absent or empty. -/
def isFalsy : Option String → Bool
  | none => true
  | some s => s.isEmpty

/-- Digit run evaluation for `pyInt?`: `none` unless every character is a
decimal digit. -/
def digitsVal : List Char → Nat → Option Nat
  | [], acc => some acc
  | c :: cs, acc =>
    if c.isDigit then digitsVal cs (acc * 10 + (c.toNat - 48)) else none

/-- Value of a nonempty all-digit character list. -/
def digitsToNat : List Char → Option Nat
  | [] => none
  | c :: cs => digitsVal (c :: cs) 0

/-- Model of Python `int(s)` on a string: an optional sign followed by a
nonempty run of decimal digits; anything else raises `ValueError`,
modelled as `none`. -/
def pyInt? (s : String) : Option Int :=
  match s.toList with
  | '-' :: cs => (digitsToNat cs).map (fun n => -(n : Int))
  | '+' :: cs => (digitsToNat cs).map (fun n => (n : Int))
  | cs => (digitsToNat cs).map (fun n => (n : Int))

/-- Ownership filter `project__user=request.user` applied to a task row:
some project row has the task's project id and is owned by `u`. -/
def ownedBy (db : DB) (u : Nat) (t : Task) : Bool :=
  db.projects.any (fun p => p.id == t.projectId && p.userId == u)

/-- The queryset
`Task.objects.filter(project__user=request.user, ended_at__isnull=True, paused_at__isnull=True)`
used by both `create` and `continue_task`. -/
def runningTasks (db : DB) (u : Nat) : List Task :=
  db.tasks.filter (fun t => ownedBy db u t && t.endedAt.isNone && t.pausedAt.isNone)

/-- `running_tasks.exists()`. -/
def hasRunning (db : DB) (u : Nat) : Bool :=
  !(runningTasks db u).isEmpty

/-- Number of running tasks of a user, used to state the
single-active-task invariant. -/
def countRunning (db : DB) (u : Nat) : Nat :=
  (runningTasks db u).length

/-- Modelled from the spec: the Task model's default name (`models.py` is
not in the sources; the spec says the name "defaults to a generic
label"). -/
def defaultTaskName : String := "unnamed task"

/-- Modelled from the spec: `Task.is_closed` (`models.py` is not in the
sources; the spec says `is_closed` holds iff `ended_at` is not null). -/
def Task.is_closed (t : Task) : Bool := t.endedAt.isSome

/-- Modelled from the spec: `Task.toggle_paused` (`models.py` is not in
the sources).  If `paused_at` is null it is set to now; otherwise the
elapsed pause time is added to `seconds_paused` and `paused_at` is
cleared.  The engine does not re-validate any other condition. -/
def Task.toggle_paused (t : Task) (now : Int) : Task :=
  match t.pausedAt with
  | none => { t with pausedAt := some now }
  | some p => { t with pausedAt := none, secondsPaused := t.secondsPaused + (now - p) }

/-- Modelled from the spec: `Task.close` (`models.py` is not in the
sources; the spec says only `ended_at` is set, `paused_at` is left
as-is). -/
def Task.close (t : Task) (now : Int) : Task :=
  { t with endedAt := some now }

/-- Modelled from the spec: `Task.restart` (`models.py` is not in the
sources).  Resets `started_at = now`, `ended_at = null`,
`paused_at = null`, `seconds_paused = 0`. -/
def Task.restart (t : Task) (now : Int) : Task :=
  { t with startedAt := now, endedAt := none, pausedAt := none, secondsPaused := 0 }

/-- Saving a mutated task row back: replace the row with that primary
key. -/
def updateTask (db : DB) (pk : Nat) (f : Task → Task) : DB :=
  { db with tasks := db.tasks.map (fun t => if t.id == pk then f t else t) }

/-- `Task.objects.create(**params)`: a new row with the next primary key
and, for fields absent from `params`, the model defaults (modelled from
the spec: `paused_at`, `ended_at`, `cloned_from` default to null and
`seconds_paused` to 0). -/
def insertTask (db : DB) (t : Task) : DB :=
  { db with tasks := db.tasks ++ [t], nextTaskId := db.nextTaskId + 1 }

/-- `ProjectViewSet.create` (views.py lines 44-49), state effect only:
a new project row owned by the caller.  The serializer validation rules
live outside the sources; the name is taken as valid, which is all the
claims need. -/
def createProject (db : DB) (u : Nat) (name : String) : DB :=
  { db with
    projects := db.projects ++ [{ id := db.nextProjectId, name := name, userId := u }]
    nextProjectId := db.nextProjectId + 1 }

/-- `TasksViewSet.create` (views.py lines 89-127): reject `Forbidden` when
a running task exists; `BadRequest` when `project_id` is falsy; look up
the project by `int(project_id)` and owner, `BadRequest` (`Invalid
Project`) on `ValueError` or `DoesNotExist`; when `duration` is truthy,
set `ended_at` to `started_at` plus the value parsed from the fixed
literal `'01:15:05'` (1 h 15 min 5 s = 4505 s) — the caller's duration
string is never parsed; finally insert the new task. -/
def createTask (db : DB) (u : Nat) (now : Int)
    (projectId taskName duration : Option String) : ApiResult × DB :=
  if hasRunning db u then
    (.forbidden runningMsg, db)
  else if isFalsy projectId then
    (.badRequest "You must provide a project in order to start a new task", db)
  else
    match (pyInt? (projectId.getD "")).bind
        (fun pid => db.projects.find? (fun p => (p.id : Int) == pid && p.userId == u)) with
    | none => (.badRequest "Invalid Project", db)
    | some project =>
      let endedAt : Option Int :=
        if isFalsy duration then none else some (now + 4505)
      let newTask : Task :=
        { id := db.nextTaskId
          name := if isFalsy taskName then defaultTaskName else (taskName.getD defaultTaskName)
          projectId := project.id
          startedAt := now
          pausedAt := none
          secondsPaused := 0
          endedAt := endedAt
          clonedFrom := none }
      (.created newTask, insertTask db newTask)

/-- `Task.objects.get(id=int(pk), project__user=request.user)` for the
pk-in-URL actions (the URL pattern only matches digit strings, so the pk
is a `Nat`). -/
def getUserTask (db : DB) (u : Nat) (pk : Nat) : Option Task :=
  db.tasks.find? (fun t => t.id == pk && ownedBy db u t)

/-- `TasksViewSet.pause_resume_task` (views.py lines 129-145). -/
def pauseResumeTask (db : DB) (u : Nat) (now : Int) (pk : Nat) : ApiResult × DB :=
  match getUserTask db u pk with
  | none => (.notFound "Task not found", db)
  | some task =>
    if !task.is_closed then
      (.ok (task.toggle_paused now), updateTask db pk (fun t => t.toggle_paused now))
    else
      (.badRequest "the task is already closed", db)

/-- `TasksViewSet.close_task` (views.py lines 147-161). -/
def closeTask (db : DB) (u : Nat) (now : Int) (pk : Nat) : ApiResult × DB :=
  match getUserTask db u pk with
  | none => (.notFound "Task not found", db)
  | some task =>
    if !task.is_closed then
      (.ok (task.close now), updateTask db pk (fun t => t.close now))
    else
      (.badRequest "Task already closed", db)

/-- `TasksViewSet.restart_task` (views.py lines 163-179). -/
def restartTask (db : DB) (u : Nat) (now : Int) (pk : Nat) : ApiResult × DB :=
  match getUserTask db u pk with
  | none => (.notFound "Task not found", db)
  | some task =>
    if !task.is_closed then
      (.ok (task.restart now), updateTask db pk (fun t => t.restart now))
    else
      (.badRequest "Task already closed", db)

/-- `TasksViewSet.continue_task` (views.py lines 181-209): reject
`Forbidden` when a running task exists; `BadRequest` when `id` is falsy;
`int(task_id)` is evaluated outside any handler for `ValueError`, so a
malformed id is a `fatal` (uncaught) outcome; `Task.objects.get(id=...,
project__user=..., ended_at__isnull=False)` raising `DoesNotExist` gives
`NotFound`; otherwise a new task is inserted with the source's name and
project, `cloned_from` the source and `started_at = now`. -/
def continueTask (db : DB) (u : Nat) (now : Int) (idStr : Option String) :
    ApiResult × DB :=
  if hasRunning db u then
    (.forbidden runningMsg, db)
  else if isFalsy idStr then
    (.badRequest "You must provide a task id in order to continue task", db)
  else
    match pyInt? (idStr.getD "") with
    | none => (.fatal "ValueError: invalid literal for int", db)
    | some tid =>
      match db.tasks.find?
          (fun t => (t.id : Int) == tid && ownedBy db u t && t.endedAt.isSome) with
      | none => (.notFound "Task not found", db)
      | some task =>
        let newTask : Task :=
          { id := db.nextTaskId
            name := task.name
            projectId := task.projectId
            startedAt := now
            pausedAt := none
            secondsPaused := 0
            endedAt := none
            clonedFrom := some task.id }
        (.created newTask, insertTask db newTask)

/-- `TasksViewSet.list` (views.py lines 79-87): the caller's tasks
ordered by `started_at` descending (pagination elided). -/
def listTasks (db : DB) (u : Nat) : List Task :=
  (db.tasks.filter (fun t => ownedBy db u t)).insertionSort
    (fun a b => b.startedAt ≤ a.startedAt)

/-- States reachable through the API from the empty store. -/
inductive Reachable : DB → Prop
  | init : Reachable emptyDB
  | project {db} (u : Nat) (name : String) :
      Reachable db → Reachable (createProject db u name)
  | create {db} (u : Nat) (now : Int) (p n d : Option String) :
      Reachable db → Reachable (createTask db u now p n d).2
  | pauseResume {db} (u : Nat) (now : Int) (pk : Nat) :
      Reachable db → Reachable (pauseResumeTask db u now pk).2
  | close {db} (u : Nat) (now : Int) (pk : Nat) :
      Reachable db → Reachable (closeTask db u now pk).2
  | restart {db} (u : Nat) (now : Int) (pk : Nat) :
      Reachable db → Reachable (restartTask db u now pk).2
  | cont {db} (u : Nat) (now : Int) (i : Option String) :
      Reachable db → Reachable (continueTask db u now i).2

/-! ### Concrete fixtures used to exercise the operations -/

/-- A project owned by user 0. -/
def alphaProject : Project := { id := 1, name := "Alpha", userId := 0 }

/-- A running task (open, not paused) in `alphaProject`. -/
def runningTask1 : Task :=
  { id := 1, name := "t", projectId := 1, startedAt := 0, pausedAt := none,
    secondsPaused := 0, endedAt := none, clonedFrom := none }

/-- The same task, paused but still open. -/
def pausedTask1 : Task := { runningTask1 with pausedAt := some 1 }

/-- The same task, closed. -/
def closedTask1 : Task := { runningTask1 with endedAt := some 4 }

/-- Store with one project of user 0 and no task. -/
def oneProjectDB : DB :=
  { projects := [alphaProject], tasks := [], nextProjectId := 2, nextTaskId := 1 }

/-- Store where user 0 has exactly one task, which is running. -/
def runningOneDB : DB :=
  { projects := [alphaProject], tasks := [runningTask1], nextProjectId := 2, nextTaskId := 2 }

/-- Store where user 0 has exactly one task, paused but open. -/
def pausedOneDB : DB :=
  { projects := [alphaProject], tasks := [pausedTask1], nextProjectId := 2, nextTaskId := 2 }

/-- Store where user 0 has exactly one task, closed. -/
def closedOneDB : DB :=
  { projects := [alphaProject], tasks := [closedTask1], nextProjectId := 2, nextTaskId := 2 }

/-! ### Helper lemmas about row lookup -/

/-- `find?` returns the unique element satisfying the predicate. -/
theorem find_eq_of_mem_of_unique {α : Type} (p : α → Bool) {l : List α} {t : α}
    (ht : t ∈ l) (hp : p t = true) (huniq : ∀ x ∈ l, p x = true → x = t) :
    l.find? p = some t := by
  induction l with
  | nil => cases ht
  | cons a l ih =>
    by_cases hpa : p a = true
    · rw [List.find?_cons_of_pos _ hpa]
      exact congrArg some (huniq a (List.mem_cons_self a l) hpa)
    · rw [List.find?_cons_of_neg _ (by simpa using hpa)]
      rcases List.mem_cons.mp ht with rfl | hmem
      · exact absurd hp hpa
      · exact ih hmem fun x hx hpx => huniq x (List.mem_cons_of_mem a hx) hpx

/-- With distinct primary keys, two task rows with the same id coincide. -/
theorem eq_of_same_id {db : DB} (hids : (db.tasks.map Task.id).Nodup)
    {x t : Task} (hx : x ∈ db.tasks) (ht : t ∈ db.tasks) (h : x.id = t.id) :
    x = t :=
  List.inj_on_of_nodup_map hids hx ht h

/-- With distinct primary keys, `Task.objects.get(id=pk, project__user=u)`
finds exactly a present, owned row. -/
theorem getUserTask_eq {db : DB} {u : Nat} {t : Task}
    (hids : (db.tasks.map Task.id).Nodup) (ht : t ∈ db.tasks)
    (hown : ownedBy db u t = true) :
    getUserTask db u t.id = some t := by
  apply find_eq_of_mem_of_unique _ ht
  · simp [hown]
  · intro x hx hpx
    have hxid : x.id = t.id := by
      have := (Bool.and_eq_true _ _).mp hpx |>.1
      simpa using this
    exact eq_of_same_id hids hx ht hxid

/-- The 403 guard of `create` fires exactly when the running-task queryset
is nonempty; no other branch of `create` answers 403. -/
theorem create_forbidden_iff (db : DB) (u : Nat) (now : Int)
    (p n d : Option String) :
    (createTask db u now p n d).1.isForbidden = true ↔ hasRunning db u = true := by
  unfold createTask
  cases hr : hasRunning db u with
  | true => simp [ApiResult.isForbidden]
  | false =>
    simp only [Bool.false_eq_true, if_false, iff_false]
    split
    · simp [ApiResult.isForbidden]
    · split <;> simp [ApiResult.isForbidden]

/-- The 403 guard of `continue_task` fires exactly when the running-task
queryset is nonempty; no other branch of `continue_task` answers 403. -/
theorem continue_forbidden_iff (db : DB) (u : Nat) (now : Int)
    (i : Option String) :
    (continueTask db u now i).1.isForbidden = true ↔ hasRunning db u = true := by
  unfold continueTask
  cases hr : hasRunning db u with
  | true => simp [ApiResult.isForbidden]
  | false =>
    simp only [Bool.false_eq_true, if_false, iff_false]
    split
    · simp [ApiResult.isForbidden]
    · split
      · simp [ApiResult.isForbidden]
      · split <;> simp [ApiResult.isForbidden]

/-- Unfolding of the `exists()` test on the running-task queryset. -/
theorem hasRunning_iff_exists (db : DB) (u : Nat) :
    hasRunning db u = true ↔
      ∃ t ∈ db.tasks, ownedBy db u t = true ∧ t.endedAt = none ∧ t.pausedAt = none := by
  rw [hasRunning, runningTasks]
  rw [Bool.not_eq_true', List.isEmpty_eq_false_iff_exists_mem]
  constructor
  · rintro ⟨t, ht⟩
    have := List.mem_filter.mp ht
    refine ⟨t, this.1, ?_⟩
    have h2 := this.2
    simp only [Bool.and_eq_true, Option.isNone_iff_eq_none] at h2
    exact ⟨h2.1.1, h2.1.2, h2.2⟩
  · rintro ⟨t, ht, h1, h2, h3⟩
    exact ⟨t, List.mem_filter.mpr ⟨ht, by simp [h1, h2, h3]⟩⟩

/-- C1 (counterexample): the at-most-one-running-task invariant does not
hold at all reachable states.  From the empty store: create a project,
create a task, pause it, create a second task, then resume the first via
`pause_resume` — the resume path performs no running-task check, leaving
user 0 with two tasks that have `paused_at = null` and `ended_at = null`
simultaneously. -/
theorem C1_counterexample :
    ¬ ∀ db : DB, Reachable db → ∀ u : Nat, countRunning db u ≤ 1 := by
  intro h
  have h1 : Reachable (createProject emptyDB 0 "Alpha") := .project 0 "Alpha" .init
  have h2 := Reachable.create 0 0 (some "1") none none h1
  have h3 := Reachable.pauseResume 0 1 1 h2
  have h4 := Reachable.create 0 2 (some "1") none none h3
  have h5 := Reachable.pauseResume 0 3 1 h4
  exact absurd (h _ h5 0) (by decide)

/-- C1: task creation and task continuation each answer Forbidden exactly
when the caller already owns a running task (`ended_at` and `paused_at`
both null); in particular a paused-but-open task blocks neither
operation.  (The global at-most-one-running invariant itself fails, see
the counterexample: `pause_resume` can resume while another task runs.) -/
theorem C1_running_check_exact (db : DB) (u : Nat) (now : Int)
    (p n d i : Option String) :
    ((createTask db u now p n d).1.isForbidden = true ↔ hasRunning db u = true) ∧
    ((continueTask db u now i).1.isForbidden = true ↔ hasRunning db u = true) ∧
    (hasRunning db u = true ↔
      ∃ t ∈ db.tasks, ownedBy db u t = true ∧ t.endedAt = none ∧ t.pausedAt = none) :=
  ⟨create_forbidden_iff db u now p n d, continue_forbidden_iff db u now i,
    hasRunning_iff_exists db u⟩

/-- C2 (counterexample): with a single paused-but-open task (`ended_at`
null, `paused_at` set), `create` does not answer 403: it creates a second
task and answers 201. -/
theorem C2_counterexample :
    (createTask pausedOneDB 0 10 (some "1") none none).1.isCreated = true ∧
    (createTask pausedOneDB 0 10 (some "1") none none).1.isForbidden = false ∧
    (createTask pausedOneDB 0 10 (some "1") none none).2.tasks.length = 2 := by
  decide

/-- C2 (amended): `create` answers Forbidden exactly when the caller owns
a *running* task (`ended_at` null and `paused_at` null); a task that is
merely open (paused) does not block creation. -/
theorem C2_create_forbidden_iff_running (db : DB) (u : Nat) (now : Int)
    (p n d : Option String) :
    (createTask db u now p n d).1.isForbidden = true ↔ hasRunning db u = true :=
  create_forbidden_iff db u now p n d

/-- C3: with a valid project, no running task and the caller-supplied
duration string "02:00:00" (7200 s), `create` stores
`ended_at = started_at + 4505` — the value of the fixed literal
`'01:15:05'` parsed at views.py line 117 — not the supplied 7200 s.
The caller's duration value is ignored, contradicting the endpoint's own
docstring ("time in format H:M:S to specify the task duration"). -/
theorem C3_duration_literal_ignored :
    (createTask oneProjectDB 0 0 (some "1") none (some "02:00:00")).1 =
      .created { id := 1, name := defaultTaskName, projectId := 1, startedAt := 0,
                 pausedAt := none, secondsPaused := 0, endedAt := some 4505,
                 clonedFrom := none } ∧
    (4505 : Int) ≠ 2 * 3600 := by
  decide

/-- C4: a malformed (non-integer) id in the body of `continue` is passed
to `int(...)` outside any `try` that catches `ValueError`
(views.py line 198 only catches `Task.DoesNotExist`), so the view raises
an uncaught exception instead of answering a structured BadRequest. -/
theorem C4_malformed_id_uncaught :
    continueTask closedOneDB 0 5 (some "abc") =
      (.fatal "ValueError: invalid literal for int", closedOneDB) ∧
    (continueTask closedOneDB 0 5 (some "abc")).1.isBadRequest = false := by
  decide

/-- C5: closing an already-closed owned task (`PUT /tasks/close/pk` with
`ended_at` already set) answers BadRequest and returns the store
unchanged, so `started_at`, `paused_at`, `seconds_paused` and `ended_at`
of every task are untouched. -/
theorem C5_close_closed_badRequest (db : DB) (u : Nat) (now : Int) (t : Task)
    (hids : (db.tasks.map Task.id).Nodup) (ht : t ∈ db.tasks)
    (hown : ownedBy db u t = true) (hclosed : t.endedAt.isSome = true) :
    closeTask db u now t.id = (.badRequest "Task already closed", db) := by
  have hfind := getUserTask_eq hids ht hown
  simp [closeTask, hfind, Task.is_closed, hclosed]

/-- C5 witness: closing the concrete already-closed task answers
BadRequest with the store unchanged. -/
theorem C5_close_closed_badRequest_witness :
    closeTask closedOneDB 0 9 closedTask1.id =
      (.badRequest "Task already closed", closedOneDB) :=
  C5_close_closed_badRequest closedOneDB 0 9 closedTask1
    (by decide) (by decide) (by decide) (by decide)

/-- C6: `continue` on a closed owned task creates and returns (201) a new
task whose name and project are copied from the source, whose
`cloned_from` is the source's id, and whose `started_at = now` with
`paused_at` and `ended_at` null. -/
theorem C6_continue_clones_closed_task (db : DB) (u : Nat) (now : Int)
    (i : Option String) (t : Task)
    (hids : (db.tasks.map Task.id).Nodup) (hrun : hasRunning db u = false)
    (ht : t ∈ db.tasks) (hown : ownedBy db u t = true)
    (hclosed : t.endedAt.isSome = true)
    (hfalsy : isFalsy i = false) (hid : pyInt? (i.getD "") = some (t.id : Int)) :
    ∃ nt : Task,
      continueTask db u now i = (.created nt, insertTask db nt) ∧
      nt.name = t.name ∧ nt.projectId = t.projectId ∧
      nt.clonedFrom = some t.id ∧ nt.startedAt = now ∧
      nt.pausedAt = none ∧ nt.endedAt = none := by
  have hfind : db.tasks.find?
      (fun x => (x.id : Int) == ((t.id : Nat) : Int) && ownedBy db u x
        && x.endedAt.isSome) = some t := by
    apply find_eq_of_mem_of_unique _ ht
    · simp [hown, hclosed]
    · intro x hx hpx
      simp only [Bool.and_eq_true, beq_iff_eq, Nat.cast_inj] at hpx
      exact eq_of_same_id hids hx ht hpx.1.1
  refine ⟨{ id := db.nextTaskId, name := t.name, projectId := t.projectId,
            startedAt := now, pausedAt := none, secondsPaused := 0,
            endedAt := none, clonedFrom := some t.id },
          ?_, rfl, rfl, rfl, rfl, rfl, rfl⟩
  simp [continueTask, hrun, hfalsy, hid, hfind]

/-- C6 witness: continuing the concrete closed task at time 7 yields a
fresh running clone of it. -/
theorem C6_continue_clones_closed_task_witness :
    ∃ nt : Task,
      continueTask closedOneDB 0 7 (some "1") =
        (.created nt, insertTask closedOneDB nt) ∧
      nt.name = closedTask1.name ∧ nt.projectId = closedTask1.projectId ∧
      nt.clonedFrom = some closedTask1.id ∧ nt.startedAt = 7 ∧
      nt.pausedAt = none ∧ nt.endedAt = none :=
  C6_continue_clones_closed_task closedOneDB 0 7 (some "1") closedTask1
    (by decide) (by decide) (by decide) (by decide) (by decide) (by decide)
    (by decide)

/-- C7 (counterexample): `continue` on an *open running* task owned by the
caller does not answer NotFound — the running-task guard fires first and
answers Forbidden. -/
theorem C7_counterexample :
    (continueTask runningOneDB 0 5 (some "1")).1.isNotFound = false ∧
    (continueTask runningOneDB 0 5 (some "1")).1.isForbidden = true := by
  decide

/-- C7 (amended): `continue` on an open task owned by the caller never
creates a task: the store is unchanged, and the response is NotFound when
the caller has no running task (the open task is merely paused), but
Forbidden when a running task exists. -/
theorem C7_continue_open_task_never_creates (db : DB) (u : Nat) (now : Int)
    (i : Option String) (t : Task)
    (hids : (db.tasks.map Task.id).Nodup)
    (ht : t ∈ db.tasks) (hown : ownedBy db u t = true) (hopen : t.endedAt = none)
    (hfalsy : isFalsy i = false) (hid : pyInt? (i.getD "") = some (t.id : Int)) :
    (hasRunning db u = false →
      continueTask db u now i = (.notFound "Task not found", db)) ∧
    (hasRunning db u = true →
      continueTask db u now i = (.forbidden runningMsg, db)) := by
  constructor
  · intro hrun
    have hfind : db.tasks.find?
        (fun x => (x.id : Int) == ((t.id : Nat) : Int) && ownedBy db u x
          && x.endedAt.isSome) = none := by
      rw [List.find?_eq_none]
      intro x hx
      by_cases hxid : x.id = t.id
      · have hxt : x = t := eq_of_same_id hids hx ht hxid
        subst hxt
        simp [hopen]
      · have hne : ((x.id : Int) == ((t.id : Nat) : Int)) = false := by
          simp only [beq_eq_false_iff_ne, ne_eq, Nat.cast_inj]
          exact hxid
        simp [hne]
    simp [continueTask, hrun, hfalsy, hid, hfind]
  · intro hrun
    simp [continueTask, hrun]

/-- C7 witness: with one paused-open task, `continue` on it answers
NotFound; with one running task, `continue` on it answers Forbidden; the
store is unchanged in both cases. -/
theorem C7_continue_open_task_never_creates_witness :
    continueTask pausedOneDB 0 5 (some "1") =
      (.notFound "Task not found", pausedOneDB) ∧
    continueTask runningOneDB 0 6 (some "1") =
      (.forbidden runningMsg, runningOneDB) :=
  ⟨(C7_continue_open_task_never_creates pausedOneDB 0 5 (some "1") pausedTask1
      (by decide) (by decide) (by decide) (by decide) (by decide)
      (by decide)).1 (by decide),
   (C7_continue_open_task_never_creates runningOneDB 0 6 (some "1") runningTask1
      (by decide) (by decide) (by decide) (by decide) (by decide)
      (by decide)).2 (by decide)⟩

instance : IsTotal Task (fun a b => b.startedAt ≤ a.startedAt) :=
  ⟨fun a b => le_total b.startedAt a.startedAt⟩

instance : IsTrans Task (fun a b => b.startedAt ≤ a.startedAt) :=
  ⟨fun _ _ _ h1 h2 => le_trans h2 h1⟩

/-- C8: `GET /tasks` returns exactly the rows whose project is owned by the
caller (a permutation of the ownership-filtered table, so no other user's
task appears), ordered by `started_at` descending. -/
theorem C8_list_scoped_and_sorted (db : DB) (u : Nat) :
    (listTasks db u).Perm (db.tasks.filter (fun t => ownedBy db u t)) ∧
    List.Sorted (fun a b => b.startedAt ≤ a.startedAt) (listTasks db u) ∧
    ∀ t ∈ listTasks db u, t ∈ db.tasks ∧ ownedBy db u t = true := by
  unfold listTasks
  refine ⟨List.perm_insertionSort _ _, List.sorted_insertionSort _ _, ?_⟩
  intro t ht
  have hmem : t ∈ db.tasks.filter (fun t => ownedBy db u t) :=
    (List.perm_insertionSort _ _).mem_iff.mp ht
  exact ⟨(List.mem_filter.mp hmem).1, (List.mem_filter.mp hmem).2⟩

/-- C9: restarting a non-closed owned task (paused or not) answers 200 and
resets `started_at = now`, `ended_at = null`, `paused_at = null`,
`seconds_paused = 0`; restarting an already-closed task answers
BadRequest with the store unchanged. -/
theorem C9_restart_resets (db : DB) (u : Nat) (now : Int) (t : Task)
    (hids : (db.tasks.map Task.id).Nodup) (ht : t ∈ db.tasks)
    (hown : ownedBy db u t = true) :
    (t.endedAt = none →
      restartTask db u now t.id =
        (.ok (t.restart now), updateTask db t.id (fun x => x.restart now)) ∧
      (t.restart now).startedAt = now ∧ (t.restart now).endedAt = none ∧
      (t.restart now).pausedAt = none ∧ (t.restart now).secondsPaused = 0) ∧
    (t.endedAt.isSome = true →
      restartTask db u now t.id = (.badRequest "Task already closed", db)) := by
  have hfind := getUserTask_eq hids ht hown
  constructor
  · intro hopen
    refine ⟨?_, rfl, rfl, rfl, rfl⟩
    simp [restartTask, hfind, Task.is_closed, hopen]
  · intro hclosed
    simp [restartTask, hfind, Task.is_closed, hclosed]

/-- C9 witness: restarting the concrete paused task resets its fields;
restarting the concrete closed task answers BadRequest unchanged. -/
theorem C9_restart_resets_witness :
    (restartTask pausedOneDB 0 9 pausedTask1.id =
      (.ok (pausedTask1.restart 9),
        updateTask pausedOneDB pausedTask1.id (fun x => x.restart 9)) ∧
      (pausedTask1.restart 9).startedAt = 9 ∧
      (pausedTask1.restart 9).endedAt = none ∧
      (pausedTask1.restart 9).pausedAt = none ∧
      (pausedTask1.restart 9).secondsPaused = 0) ∧
    restartTask closedOneDB 0 9 closedTask1.id =
      (.badRequest "Task already closed", closedOneDB) :=
  ⟨(C9_restart_resets pausedOneDB 0 9 pausedTask1
      (by decide) (by decide) (by decide)).1 (by decide),
   (C9_restart_resets closedOneDB 0 9 closedTask1
      (by decide) (by decide) (by decide)).2 (by decide)⟩

/-- C10: whenever the caller owns a running task, both `create` and
`continue` answer Forbidden with the store unchanged — irrespective of the
request parameters (missing, empty or invalid `project_id` / `id`), so the
running-task guard precedes all parameter validation and no BadRequest is
observable in that situation. -/
theorem C10_forbidden_checked_first (db : DB) (u : Nat) (now : Int)
    (p n d i : Option String) (h : hasRunning db u = true) :
    createTask db u now p n d = (.forbidden runningMsg, db) ∧
    continueTask db u now i = (.forbidden runningMsg, db) := by
  constructor
  · simp [createTask, h]
  · simp [continueTask, h]

/-- C10 witness: with a running task and a request missing its required
parameter entirely, both operations answer Forbidden, not BadRequest. -/
theorem C10_forbidden_checked_first_witness :
    createTask runningOneDB 0 5 none none none =
      (.forbidden runningMsg, runningOneDB) ∧
    continueTask runningOneDB 0 5 none = (.forbidden runningMsg, runningOneDB) :=
  C10_forbidden_checked_first runningOneDB 0 5 none none none none (by decide)

end ProjectTracking
